import Mathlib

/-!
Verification of the League MCP server's tool-request formatter and dispatcher
(`league.py`, `league_original.py`).  Python values parsed from JSON are
modelled by `Json`; a Python expression that can raise is modelled as an
`Option`-valued function, `none` standing for an uncaught exception.  Each
tool takes the module-level API key and the outcome of the single outbound
HTTP request as explicit parameters and returns the tool's result together
with a flag recording whether the network call was attempted.
-/

/-- A parsed JSON value as Python represents it (dict insertion order kept). -/
inductive Json where
  | null
  | bool (b : Bool)
  | num (n : Int)
  | str (s : String)
  | arr (elems : List Json)
  | obj (fields : List (String × Json))

mutual

/-- Python `repr` of a JSON-parsed value, as used when such a value is nested
inside a container that gets interpolated into an f-string. -/
def pyRepr : Json → String
  | .null => "None"
  | .bool b => if b then "True" else "False"
  | .num n => toString n
  | .str s => "'" ++ s ++ "'"
  | .arr xs => "[" ++ String.intercalate ", " (pyReprList xs) ++ "]"
  | .obj fs => "\x7b" ++ String.intercalate ", " (pyReprFields fs) ++ "\x7d"

/-- Python `repr` of each element of a list. -/
def pyReprList : List Json → List String
  | [] => []
  | j :: rest => pyRepr j :: pyReprList rest

/-- Python `repr` of each key/value pair of a dict. -/
def pyReprFields : List (String × Json) → List String
  | [] => []
  | (k, v) :: rest => ("'" ++ k ++ "': " ++ pyRepr v) :: pyReprFields rest

end

/-- Python `str()` of a JSON-parsed value: what an f-string interpolation
produces. -/
def pyStr : Json → String
  | .str s => s
  | j => pyRepr j

mutual

/-- Python `==` between two JSON-parsed values (no cross-type equality is
needed here: the program only compares against strings and ints). -/
def jsonBeq : Json → Json → Bool
  | .null, .null => true
  | .bool a, .bool b => a == b
  | .num a, .num b => a == b
  | .str a, .str b => a == b
  | .arr a, .arr b => jsonBeqList a b
  | .obj a, .obj b => jsonBeqFields a b
  | _, _ => false

/-- Elementwise `==` on Python lists. -/
def jsonBeqList : List Json → List Json → Bool
  | [], [] => true
  | a :: as', b :: bs => jsonBeq a b && jsonBeqList as' bs
  | _, _ => false

/-- Pairwise `==` on dict items. -/
def jsonBeqFields : List (String × Json) → List (String × Json) → Bool
  | [], [] => true
  | (ka, va) :: as', (kb, vb) :: bs => ka == kb && jsonBeq va vb && jsonBeqFields as' bs
  | _, _ => false

end

/-- Python truthiness of a JSON-parsed value (`if not x`). -/
def pyFalsy : Json → Bool
  | .null => true
  | .bool b => !b
  | .num n => n == 0
  | .str s => s.isEmpty
  | .arr xs => xs.isEmpty
  | .obj fs => fs.isEmpty

/-- First binding of a key in a dict's item list (Python dict keys are
unique, so first = only). -/
def lookupField (fs : List (String × Json)) (k : String) : Option Json :=
  fs.lookup k

/-- Whether `pat` is an initial segment of `s`. -/
def charsHavePre : List Char → List Char → Bool
  | [], _ => true
  | _ :: _, [] => false
  | a :: as', b :: bs => a == b && charsHavePre as' bs

/-- Whether `pat` occurs anywhere inside `s`. -/
def charsHaveSub (pat : List Char) : List Char → Bool
  | [] => charsHavePre pat []
  | c :: rest => charsHavePre pat (c :: rest) || charsHaveSub pat rest

/-- Number of positions of `s` at which `pat` starts. -/
def charsCountSub (pat : List Char) : List Char → Nat
  | [] => 0
  | c :: rest => (if charsHavePre pat (c :: rest) then 1 else 0) + charsCountSub pat rest

/-- Number of occurrences of `pat` in `s` (for counting rendered entries in a
formatter's output). -/
def strCount (s pat : String) : Nat :=
  charsCountSub pat.data s.data

/-- Occurrence count through an `Option`-valued output (0 when the formatter
raised). -/
def strCountOpt (o : Option String) (pat : String) : Nat :=
  match o with
  | none => 0
  | some s => strCount s pat

/-- Substring test through an `Option`-valued output. -/
def strHasOpt (o : Option String) (pat : String) : Bool :=
  match o with
  | none => false
  | some s => charsHaveSub pat.data s.data

/-- Python `x in j` for a string `x`: key test on dicts, membership on lists,
substring test on strings, `TypeError` otherwise. -/
def pyContains (j : Json) (needle : String) : Option Bool :=
  match j with
  | .obj fs => some (fs.any (fun kv => kv.1 == needle))
  | .arr xs => some (xs.any (fun x => jsonBeq x (.str needle)))
  | .str s => some (charsHaveSub needle.data s.data)
  | _ => none

/-- Python `d.get(k, dflt)`: `AttributeError` when `d` is not a dict. -/
def pyGetD (j : Json) (k : String) (dflt : Json) : Option Json :=
  match j with
  | .obj fs => some ((lookupField fs k).getD dflt)
  | _ => none

/-- Python `d.get(k)` (default `None`). -/
def pyGet (j : Json) (k : String) : Option Json :=
  pyGetD j k .null

/-- Python `d[k]` for a string key: `KeyError` when absent, `TypeError` on a
non-dict. -/
def pySubscript (j : Json) (k : String) : Option Json :=
  match j with
  | .obj fs => lookupField fs k
  | _ => none

/-- Python `len(j)`: `TypeError` on values without a length. -/
def pyLen (j : Json) : Option Nat :=
  match j with
  | .str s => some s.length
  | .arr xs => some xs.length
  | .obj fs => some fs.length
  | _ => none

/-- Python iteration over a JSON-parsed value: list elements, the characters
of a string, or a dict's keys; `TypeError` otherwise. -/
def pyIter (j : Json) : Option (List Json) :=
  match j with
  | .arr xs => some xs
  | .str s => some (s.data.map fun c => .str (String.mk [c]))
  | .obj fs => some (fs.map fun kv => .str kv.1)
  | _ => none

/-- A JSON value usable as a Python int (bool is an int subtype);
`TypeError` otherwise. -/
def pyAsInt (j : Json) : Option Int :=
  match j with
  | .num n => some n
  | .bool b => some (if b then 1 else 0)
  | _ => none

/-- A JSON value that must be a Python str (e.g. for `.upper()` or slicing). -/
def pyAsStr (j : Json) : Option String :=
  match j with
  | .str s => some s
  | _ => none

/-- Python `j // d` for a positive literal divisor. -/
def pyFloorDiv (j : Json) (d : Int) : Option Int :=
  (pyAsInt j).map (fun n => Int.fdiv n d)

/-- Python `j % d` for a positive literal divisor. -/
def pyModC (j : Json) (d : Int) : Option Int :=
  (pyAsInt j).map (fun n => Int.emod n d)

/-- Python `j == n` for an int literal `n` (no exception, just `False` on
other types). -/
def pyEqInt (j : Json) (n : Int) : Bool :=
  match pyAsInt j with
  | some m => m == n
  | none => false

/-- First `n` characters of a string (`String.take` via the character list,
which the kernel evaluates). -/
def strTake (s : String) (n : Nat) : String :=
  String.mk (s.data.take n)

/-- ASCII uppercasing via the character list (Python `str.upper` on the
ASCII tier names). -/
def strUpper (s : String) : String :=
  String.mk (s.data.map Char.toUpper)

/-- Python string slice `s[:n]`: `TypeError` on a non-string. -/
def pySlice (j : Json) (n : Nat) : Option String :=
  (pyAsStr j).map (fun s => strTake s n)

/-- Python true division of an extracted int by a positive literal, as the
exact rational the resulting float denotes (built with `Rat.divInt`, which
the kernel can evaluate). -/
def pyDivFloat (j : Json) (d : Int) : Option ℚ :=
  (pyAsInt j).map (fun n => Rat.divInt n d)

/-- Python true division `a / b`: `ZeroDivisionError` when `b = 0`. -/
def pyTrueDiv (a b : Int) : Option ℚ :=
  if b = 0 then none else some (Rat.divInt a b)

/-- Multiplication of an exact rational by the literal 100, built with
`Rat.divInt` so that it evaluates. -/
def ratTimes100 (q : ℚ) : ℚ :=
  Rat.divInt (q.num * 100) (q.den : Int)

/-- Rendering of a float whose exact value is an integer, as Python's
f-string does (`60.0`); other denominators never reach an output we reason
about and are rendered as a fraction. -/
def fmtFloatQ (q : ℚ) : String :=
  if q.den = 1 then s!"{q.num}.0" else s!"{q.num}/{q.den}"

/-- Python `f-string` formatting `:.1f` for the nonnegative exact rationals
produced by the win-rate computation: the floor of `q * 10 + 1 / 2`, computed
on the numerator and denominator. -/
def fmt1f (q : ℚ) : String :=
  let n : Int := Int.fdiv (20 * q.num + (q.den : Int)) (2 * (q.den : Int))
  s!"{n / 10}.{n % 10}"

/-- Python `f-string` formatting `:02d`. -/
def zeroPad2 (n : Int) : String :=
  let s := toString n
  if s.length < 2 then "0" ++ s else s

/-- Python `f-string` formatting `:2d`. -/
def padLeft2 (n : Nat) : String :=
  let s := toString n
  if s.length < 2 then " " ++ s else s

/-- Sequencing of fallible Python steps (`Option.bind`, kept out-of-line so
that long extraction chains compile). -/
@[noinline] def obind {a b : Type} (o : Option a) (k : a → Option b) : Option b :=
  match o with
  | none => none
  | some x => k x

/-! The `league.py` module: request helper, formatters and tools.  A tool's
result is the returned string (`none` when an exception escaped) paired with
whether the outbound network call was attempted. -/

/-- Outcome of the single `httpx` GET a tool performs: a 2xx response with a
parsed JSON body, a non-2xx status (the `HTTPStatusError` branch), or any
other exception during the call (the generic `except` branch). -/
inductive UpstreamResult where
  | success (body : Json)
  | httpError (code : Nat) (text : String)
  | exn (msg : String)

/-- The dict `{"error": msg}` that `make_riot_request` returns on failure. -/
def errObj (msg : String) : Json :=
  .obj [("error", .str msg)]

/-- The closed set of LoL platform regions (`LOL_REGIONS` in the source). -/
def LOL_REGIONS : List String :=
  ["na1", "euw1", "eun1", "kr", "jp1", "br1", "la1", "la2", "oc1", "tr1", "ru"]

/-- The validation-error message a region-checked tool returns for a region
outside `LOL_REGIONS`. -/
def invalidRegionMsg (region : String) : String :=
  s!"Error: Invalid region '{region}'. Valid regions: " ++ String.intercalate ", " LOL_REGIONS

/-- Embedding of `make_riot_request`: returns the error dict without any network call when
the API key is unset or empty, otherwise performs the request and converts
any failure into an error dict. -/
def make_riot_request (apiKey : Option String) (resp : UpstreamResult) : Json × Bool :=
  match apiKey with
  | none => (errObj "RIOT_API_KEY environment variable not set", false)
  | some key =>
    if key = "" then (errObj "RIOT_API_KEY environment variable not set", false)
    else
      match resp with
      | .success body => (body, true)
      | .httpError code text => (errObj s!"HTTP {code}: {text}", true)
      | .exn msg => (errObj s!"Request failed: {msg}", true)

/-- Embedding of `format_account`. -/
def format_account (account_data : Json) : Option String :=
  obind (pyContains account_data "error") fun hasErr =>
  if hasErr then
    obind (pySubscript account_data "error") fun e =>
    some s!"Error: {pyStr e}"
  else
  obind (pyGetD account_data "puuid" (.str "N/A")) fun puuid =>
  obind (pyGetD account_data "gameName" (.str "N/A")) fun game_name =>
  obind (pyGetD account_data "tagLine" (.str "N/A")) fun tag_line =>
  some s!"\nPUUID: {pyStr puuid}\nGame Name: {pyStr game_name}\nTag Line: {pyStr tag_line}\nRiot ID: {pyStr game_name}#{pyStr tag_line}\n"

/-- Embedding of `get_account_by_puuid`: note there is no region validation before the
request is made. -/
def get_account_by_puuid (apiKey : Option String) (puuid region : String)
    (resp : UpstreamResult) : Option String × Bool :=
  let (data, called) := make_riot_request apiKey resp
  if pyFalsy data then (some "Unable to fetch account data.", called)
  else (format_account data, called)

/-- Embedding of `get_account_by_riot_id`: same shape as `get_account_by_puuid`, again
with no region validation. -/
def get_account_by_riot_id (apiKey : Option String) (game_name tag_line region : String)
    (resp : UpstreamResult) : Option String × Bool :=
  let (data, called) := make_riot_request apiKey resp
  if pyFalsy data then (some "Unable to fetch account data.", called)
  else (format_account data, called)

/-- The per-participant loop shared by the players and bans sections of
`format_active_game`: builds the blue-side and red-side line lists. -/
def teamPartition : List Json → Option (List String × List String)
  | [] => some ([], [])
  | p :: rest =>
    obind (pyGetD p "championId" (.str "N/A")) fun champ =>
    let info := s!"Champion ID: {pyStr champ}"
    obind (pyGet p "teamId") fun tid =>
    obind (teamPartition rest) fun tt =>
    if pyEqInt tid 100 then some (info :: tt.1, tt.2) else some (tt.1, info :: tt.2)

/-- The `chr(10).join(...) if items else empty` pattern used for the player
and ban lists. -/
def joinBullets (items : List String) (empty : String) : String :=
  if items.isEmpty then empty
  else String.intercalate "\n" (items.map fun s => s!"  - {s}")

/-- Embedding of `format_active_game`.  The `//` and `%` on `gameLength` are unguarded in
the source: a non-integer value raises a `TypeError` (modelled as `none`). -/
def format_active_game (game_data : Json) : Option String :=
  obind (pyContains game_data "error") fun hasErr =>
  if hasErr then
    obind (pySubscript game_data "error") fun e =>
    some s!"Error: {pyStr e}"
  else
  obind (pyGetD game_data "gameId" (.str "N/A")) fun game_id =>
  obind (pyGetD game_data "gameType" (.str "N/A")) fun game_type =>
  obind (pyGetD game_data "gameMode" (.str "N/A")) fun game_mode =>
  obind (pyGetD game_data "gameLength" (.num 0)) fun game_length =>
  obind (pyGetD game_data "mapId" (.str "N/A")) fun map_id =>
  obind (pyGetD game_data "gameQueueConfigId" (.str "N/A")) fun queue_id =>
  obind (pyFloorDiv game_length 60) fun minutes =>
  obind (pyModC game_length 60) fun seconds =>
  let game_duration := s!"{minutes}:{zeroPad2 seconds}"
  obind (pyGetD game_data "participants" (.arr [])) fun participants_j =>
  obind (pyIter participants_j) fun participants =>
  obind (teamPartition participants) fun teams =>
  obind (pyGetD game_data "bannedChampions" (.arr [])) fun banned_j =>
  obind (pyIter banned_j) fun banned =>
  obind (teamPartition banned) fun bans =>
  let players1 := joinBullets teams.1 "  No players found"
  let bans1 := joinBullets bans.1 "  No bans"
  let players2 := joinBullets teams.2 "  No players found"
  let bans2 := joinBullets bans.2 "  No bans"
  some s!"\nACTIVE GAME INFORMATION\n=======================\nGame ID: {pyStr game_id}\nGame Type: {pyStr game_type}\nGame Mode: {pyStr game_mode}\nMap ID: {pyStr map_id}\nQueue ID: {pyStr queue_id}\nDuration: {game_duration}\n\nTEAM 1 (Blue Side):\nPlayers: {teams.1.length}\n{players1}\n\nBans:\n{bans1}\n\nTEAM 2 (Red Side):\nPlayers: {teams.2.length}\n{players2}\n\nBans:\n{bans2}\n"

/-- Embedding of `get_active_game`: validates the region against `LOL_REGIONS` before any
request. -/
def get_active_game (apiKey : Option String) (puuid region : String)
    (resp : UpstreamResult) : Option String × Bool :=
  if !(LOL_REGIONS.contains region) then (some (invalidRegionMsg region), false)
  else
    let (data, called) := make_riot_request apiKey resp
    if pyFalsy data then (some "Unable to fetch active game data.", called)
    else (format_active_game data, called)

/-- Whether a value is a dict with a top-level `"error"` key (the
`isinstance(x, dict) and "error" in x` test of the list formatters). -/
def jsonIsErrObj (j : Json) : Bool :=
  match j with
  | .obj fs => fs.any (fun kv => kv.1 == "error")
  | _ => false

/-- The per-registration blocks of `format_clash_player`, numbered from 1. -/
def clashRegBlocks : Nat → List Json → Option String
  | _, [] => some ""
  | i, r :: rest =>
    obind (pyGetD r "summonerId" (.str "N/A")) fun summoner_id =>
    obind (pyGetD r "puuid" (.str "N/A")) fun puuid =>
    obind (pyGetD r "teamId" (.str "N/A")) fun team_id =>
    obind (pyGetD r "position" (.str "N/A")) fun position =>
    obind (pyGetD r "role" (.str "N/A")) fun role =>
    obind (clashRegBlocks (i + 1) rest) fun tail =>
    some (s!"\nRegistration #{i}:\n  Summoner ID: {pyStr summoner_id}\n  PUUID: {pyStr puuid}\n  Team ID: {pyStr team_id}\n  Position: {pyStr position}\n  Role: {pyStr role}\n" ++ tail)

/-- Embedding of `format_clash_player`: an empty (falsy) input yields the explicit
"none found" sentence. -/
def format_clash_player (player_data : Json) : Option String :=
  if pyFalsy player_data then some "No active Clash registrations found for this player."
  else if jsonIsErrObj player_data then
    obind (pySubscript player_data "error") fun e =>
    some s!"Error: {pyStr e}"
  else
  obind (pyLen player_data) fun n =>
  obind (pyIter player_data) fun items =>
  obind (clashRegBlocks 1 items) fun blocks =>
  some (s!"\nCLASH PLAYER REGISTRATIONS\n==========================\nActive Registrations: {n}\n\n" ++ blocks)

/-- Embedding of `get_clash_players_by_puuid`: region-validated; note the `if not data`
falsy test runs before the formatter, so an empty 2xx list is reported as
"Unable to fetch Clash player data.". -/
def get_clash_players_by_puuid (apiKey : Option String) (puuid region : String)
    (resp : UpstreamResult) : Option String × Bool :=
  if !(LOL_REGIONS.contains region) then (some (invalidRegionMsg region), false)
  else
    let (data, called) := make_riot_request apiKey resp
    if pyFalsy data then (some "Unable to fetch Clash player data.", called)
    else (format_clash_player data, called)

/-! The `league_original.py` module: routing-region translation, league
formatters, match-history formatters and the match-timeline tool. -/

/-- The fixed platform-to-routing lookup table (`PLATFORM_TO_ROUTING`). -/
def PLATFORM_TO_ROUTING : List (String × String) :=
  [("na1", "americas"), ("br1", "americas"), ("la1", "americas"), ("la2", "americas"),
   ("kr", "asia"), ("jp1", "asia"),
   ("euw1", "europe"), ("eun1", "europe"), ("tr1", "europe"), ("ru", "europe"),
   ("oc1", "sea")]

/-- Embedding of `get_routing_region`: table lookup defaulting to `"americas"`. -/
def get_routing_region (platform_region : String) : String :=
  (PLATFORM_TO_ROUTING.lookup platform_region).getD "americas"

/-- The win-rate expression of the league formatters:
`(wins / (wins + losses) * 100) if (wins + losses) > 0 else 0`, with true
division modelled exactly (`none` would be a `ZeroDivisionError`). -/
def winrate (wins losses : Int) : Option ℚ :=
  if 0 < wins + losses then (pyTrueDiv wins (wins + losses)).map ratTimes100
  else some (Rat.divInt 0 1)

/-- The conditional expression
`entry.get('puuid', 'N/A')[:8] + '...' if entry.get('puuid') else 'N/A'`
shared by both league formatters. -/
def puuidShort (entry : Json) : Option String :=
  obind (pyGet entry "puuid") fun cond =>
  if !(pyFalsy cond) then
    obind (pyGetD entry "puuid" (.str "N/A")) fun v =>
    obind (pySlice v 8) fun s8 =>
    some (s8 ++ "...")
  else some "N/A"

/-- Stable insert for a descending sort on integer keys (an earlier element
goes before a later one with an equal key). -/
def insertDescBy {a : Type} (x : Int × a) : List (Int × a) → List (Int × a)
  | [] => [x]
  | y :: ys => if y.1 ≤ x.1 then x :: y :: ys else y :: insertDescBy x ys

/-- Stable descending sort on integer keys: the behaviour of Python's
`sorted(..., key=..., reverse=True)`. -/
def sortDescBy {a : Type} : List (Int × a) → List (Int × a)
  | [] => []
  | x :: xs => insertDescBy x (sortDescBy xs)

/-- Stable insert for an ascending sort on integer keys. -/
def insertAscBy {a : Type} (x : Int × a) : List (Int × a) → List (Int × a)
  | [] => [x]
  | y :: ys => if x.1 ≤ y.1 then x :: y :: ys else y :: insertAscBy x ys

/-- Stable ascending sort on integer keys: the behaviour of Python's
`list.sort(key=...)`. -/
def sortAscBy {a : Type} : List (Int × a) → List (Int × a)
  | [] => []
  | x :: xs => insertAscBy x (sortAscBy xs)

/-- Key extraction pass of `sorted(entries, key=lambda x: x.get('leaguePoints', 0), ...)`:
pairs each entry with its integer key (a non-int key would make the sort's
comparisons raise). -/
def lpKeyed : List Json → Option (List (Int × Json))
  | [] => some []
  | e :: rest =>
    obind (pyGetD e "leaguePoints" (.num 0)) fun k =>
    obind (pyAsInt k) fun ki =>
    obind (lpKeyed rest) fun tail =>
    some ((ki, e) :: tail)

/-- One numbered entry block of `format_league_list`. -/
def leagueListBlock (i : Nat) (entry : Json) : Option String :=
  obind (pyGetD entry "summonerId" (.str "N/A")) fun summoner_id =>
  obind (puuidShort entry) fun puuid =>
  obind (pyGetD entry "rank" (.str "N/A")) fun rank =>
  obind (pyGetD entry "leaguePoints" (.num 0)) fun lp =>
  obind (pyGetD entry "wins" (.num 0)) fun wins_j =>
  obind (pyGetD entry "losses" (.num 0)) fun losses_j =>
  obind (pyGetD entry "hotStreak" (.bool false)) fun hot =>
  obind (pyGetD entry "veteran" (.bool false)) fun vet =>
  obind (pyGetD entry "freshBlood" (.bool false)) fun fresh =>
  obind (pyAsInt wins_j) fun w =>
  obind (pyAsInt losses_j) fun l =>
  obind (winrate w l) fun wr =>
  let flags := (if !(pyFalsy hot) then ["🔥HOT"] else []) ++
    (if !(pyFalsy vet) then ["⭐VET"] else []) ++
    (if !(pyFalsy fresh) then ["🆕NEW"] else [])
  let flag_str := if flags.isEmpty then "" else " " ++ String.intercalate " " flags
  obind (pySlice summoner_id 20) fun sid =>
  some s!"\n#{padLeft2 i}. {pyStr rank} {pyStr lp} LP - {pyStr wins_j}W/{pyStr losses_j}L ({fmt1f wr}%){flag_str}\n     Summoner: {sid}...\n     PUUID: {puuid}\n"

/-- The `for i, entry in enumerate(sorted_entries[:10], 1)` loop of
`format_league_list` (the caller passes the already-truncated list). -/
def leagueListBlocks : Nat → List Json → Option String
  | _, [] => some ""
  | i, e :: rest =>
    obind (leagueListBlock i e) fun blk =>
    obind (leagueListBlocks (i + 1) rest) fun tail =>
    some (blk ++ tail)

/-- Embedding of `format_league_list`: sorts by league points descending and renders only
the top 10 entries (with no "and N more" summary line). -/
def format_league_list (league_data : Json) : Option String :=
  obind (pyContains league_data "error") fun hasErr =>
  if hasErr then
    obind (pySubscript league_data "error") fun e =>
    some s!"Error: {pyStr e}"
  else
  obind (pyGetD league_data "leagueId" (.str "N/A")) fun league_id =>
  obind (pyGetD league_data "tier" (.str "N/A")) fun tier =>
  obind (pyGetD league_data "name" (.str "N/A")) fun name =>
  obind (pyGetD league_data "queue" (.str "N/A")) fun queue =>
  obind (pyGetD league_data "entries" (.arr [])) fun entries_j =>
  obind (pyAsStr tier) fun tier_s =>
  let ruler := String.mk (List.replicate (tier_s.length + 7) '=')
  obind (pyIter entries_j) fun entries =>
  obind (lpKeyed entries) fun keyed =>
  let sorted_entries := (sortDescBy keyed).map Prod.snd
  obind (leagueListBlocks 1 (sorted_entries.take 10)) fun blocks =>
  some (s!"\n{strUpper tier_s} LEAGUE\n{ruler}\nLeague ID: {pyStr league_id}\nName: {pyStr name}\nQueue: {pyStr queue}\nTotal Players: {entries.length}\n\nTOP PLAYERS:\n" ++ blocks)

/-- The `if mini_series:` branch of a league-entries block. -/
def miniSeriesInfo (entry : Json) : Option String :=
  obind (pyGet entry "miniSeries") fun mini =>
  if !(pyFalsy mini) then
    obind (pyGetD mini "target" (.num 0)) fun target =>
    obind (pyGetD mini "progress" (.str "")) fun progress =>
    obind (pyGetD mini "wins" (.num 0)) fun swins =>
    obind (pyGetD mini "losses" (.num 0)) fun slosses =>
    some s!"\n  Promotion Series: {pyStr progress} (Bo{pyStr target}) - {pyStr swins}W/{pyStr slosses}L"
  else some ""

/-- One numbered queue block of `format_league_entries`. -/
def leagueEntryBlock (i : Nat) (entry : Json) : Option String :=
  obind (pyGetD entry "leagueId" (.str "N/A")) fun league_id =>
  obind (pyGetD entry "summonerId" (.str "N/A")) fun summoner_id =>
  obind (puuidShort entry) fun puuid =>
  obind (pyGetD entry "queueType" (.str "N/A")) fun queue_type =>
  obind (pyGetD entry "tier" (.str "N/A")) fun tier =>
  obind (pyGetD entry "rank" (.str "N/A")) fun rank =>
  obind (pyGetD entry "leaguePoints" (.num 0)) fun lp =>
  obind (pyGetD entry "wins" (.num 0)) fun wins_j =>
  obind (pyGetD entry "losses" (.num 0)) fun losses_j =>
  obind (pyGetD entry "hotStreak" (.bool false)) fun hot =>
  obind (pyGetD entry "veteran" (.bool false)) fun vet =>
  obind (pyGetD entry "freshBlood" (.bool false)) fun fresh =>
  obind (pyGetD entry "inactive" (.bool false)) fun inactive =>
  obind (pyAsInt wins_j) fun w =>
  obind (pyAsInt losses_j) fun l =>
  obind (winrate w l) fun wr =>
  obind (miniSeriesInfo entry) fun series_info =>
  let flags := (if !(pyFalsy hot) then ["🔥HOT STREAK"] else []) ++
    (if !(pyFalsy vet) then ["⭐VETERAN"] else []) ++
    (if !(pyFalsy fresh) then ["🆕FRESH BLOOD"] else []) ++
    (if !(pyFalsy inactive) then ["😴INACTIVE"] else [])
  let joined := String.intercalate " | " flags
  let flag_str := if flags.isEmpty then "" else s!"\n  Status: {joined}"
  obind (pySlice summoner_id 30) fun sid =>
  some s!"\nQueue #{i}: {pyStr queue_type}\n  Rank: {pyStr tier} {pyStr rank} ({pyStr lp} LP)\n  Record: {pyStr wins_j}W/{pyStr losses_j}L ({fmt1f wr}% WR)\n  League ID: {pyStr league_id}\n  Summoner: {sid}...\n  PUUID: {puuid}{series_info}{flag_str}\n\n"

/-- The `for i, entry in enumerate(entries_data, 1)` loop of
`format_league_entries`: every entry is rendered, with no cap. -/
def leagueEntryBlocksFrom : Nat → List Json → Option String
  | _, [] => some ""
  | i, e :: rest =>
    obind (leagueEntryBlock i e) fun blk =>
    obind (leagueEntryBlocksFrom (i + 1) rest) fun tail =>
    some (blk ++ tail)

/-- Embedding of `format_league_entries`: renders all entries (no display cap). -/
def format_league_entries (entries_data : Json) : Option String :=
  if pyFalsy entries_data then some "No ranked entries found for this player."
  else if jsonIsErrObj entries_data then
    obind (pySubscript entries_data "error") fun e =>
    some s!"Error: {pyStr e}"
  else
  obind (pyLen entries_data) fun n =>
  obind (pyIter entries_data) fun items =>
  obind (leagueEntryBlocksFrom 1 items) fun blocks =>
  some (s!"\nRANKED LEAGUE ENTRIES\n=====================\nTotal Queues: {n}\n\n" ++ blocks)

/-- The numbered lines of `format_match_ids` (`f"{i:2d}. {match_id}\n"`). -/
def matchIdLines : Nat → List Json → String
  | _, [] => ""
  | i, m :: rest => s!"{padLeft2 i}. {pyStr m}\n" ++ matchIdLines (i + 1) rest

/-- Embedding of `format_match_ids`: renders the first 10 IDs and appends an
"... and N more matches" line when more exist. -/
def format_match_ids (match_ids : Json) (puuid : String) : Option String :=
  if pyFalsy match_ids then some s!"No matches found for PUUID: {strTake puuid 8}..."
  else if jsonIsErrObj match_ids then
    obind (pySubscript match_ids "error") fun e =>
    some s!"Error: {pyStr e}"
  else
  obind (pyLen match_ids) fun n =>
  obind (pyIter match_ids) fun items =>
  let lines := matchIdLines 1 (items.take 10)
  let suffix := if 10 < n then s!"\n... and {n - 10} more matches" else ""
  some (s!"\nMATCH HISTORY\n=============\nPUUID: {strTake puuid 8}...\nTotal Matches: {n}\n\nRECENT MATCH IDs:\n" ++ lines ++ suffix)

/-- The allow-list of timeline event kinds
(`['CHAMPION_KILL', 'ELITE_MONSTER_KILL', 'BUILDING_KILL', 'CHAMPION_SPECIAL_KILL']`). -/
def importantTypes : List String :=
  ["CHAMPION_KILL", "ELITE_MONSTER_KILL", "BUILDING_KILL", "CHAMPION_SPECIAL_KILL"]

/-- Python `event_type in importantTypes` (`==` against each element). -/
def isImportantType (t : Json) : Bool :=
  importantTypes.any (fun s => jsonBeq t (Json.str s))

/-- The inner `for event in events` loop of the timeline collection: keeps
`{'timestamp': ts, 'type': t, 'data': event}` for allow-listed kinds. -/
def collectFrameEvents (ts : Json) : List Json → Option (List (Json × Json × Json))
  | [] => some []
  | e :: rest =>
    obind (pyGetD e "type" (.str "")) fun t =>
    obind (collectFrameEvents ts rest) fun tail =>
    if isImportantType t then some ((ts, t, e) :: tail) else some tail

/-- The outer `for frame in frames` loop of the timeline collection. -/
def collectImportant : List Json → Option (List (Json × Json × Json))
  | [] => some []
  | f :: rest =>
    obind (pyGetD f "timestamp" (.num 0)) fun ts =>
    obind (pyGetD f "events" (.arr [])) fun evs_j =>
    obind (pyIter evs_j) fun evs =>
    obind (collectFrameEvents ts evs) fun here =>
    obind (collectImportant rest) fun tail =>
    some (here ++ tail)

/-- Key extraction for `important_events.sort(key=lambda x: x['timestamp'])`
followed by the stable ascending sort. -/
def sortByTs (l : List (Json × Json × Json)) : Option (List (Json × Json × Json)) :=
  obind (keyed l) fun ks =>
  some ((sortAscBy ks).map Prod.snd)
where
  /-- Integer sort key of each collected event record. -/
  keyed : List (Json × Json × Json) → Option (List (Int × (Json × Json × Json)))
  | [] => some []
  | t :: rest =>
    obind (pyAsInt t.1) fun k =>
    obind (keyed rest) fun tail =>
    some ((k, t) :: tail)

/-- One rendered timeline event: the branches for the three rendered kinds;
a collected `CHAMPION_SPECIAL_KILL` renders nothing. -/
def renderEvent (ts ty ev : Json) : Option String :=
  obind (pyFloorDiv ts 60000) fun minutes =>
  obind (pyModC ts 60000) fun rem =>
  let seconds := Int.fdiv rem 1000
  let time_str := s!"{zeroPad2 minutes}:{zeroPad2 seconds}"
  if jsonBeq ty (Json.str "CHAMPION_KILL") then
    obind (pyGetD ev "killerId" (.num 0)) fun killer =>
    obind (pyGetD ev "victimId" (.num 0)) fun victim =>
    obind (pyGetD ev "assistingParticipantIds" (.arr [])) fun assists_j =>
    let base := s!"{time_str} - Champion Kill: P{pyStr killer} killed P{pyStr victim}"
    if !(pyFalsy assists_j) then
      obind (pyIter assists_j) fun aids =>
      let alist := String.intercalate ", " (aids.map fun a => s!"P{pyStr a}")
      some (base ++ s!" (Assists: {alist})" ++ "\n")
    else some (base ++ "\n")
  else if jsonBeq ty (Json.str "ELITE_MONSTER_KILL") then
    obind (pyGetD ev "killerId" (.num 0)) fun killer =>
    obind (pyGetD ev "monsterType" (.str "Unknown")) fun monster =>
    some s!"{time_str} - Elite Monster Kill: P{pyStr killer} killed {pyStr monster}\n"
  else if jsonBeq ty (Json.str "BUILDING_KILL") then
    obind (pyGetD ev "killerId" (.num 0)) fun killer =>
    obind (pyGetD ev "buildingType" (.str "Unknown")) fun btype =>
    obind (pyGetD ev "laneType" (.str "")) fun lane =>
    let base := s!"{time_str} - Building Kill: P{pyStr killer} destroyed {pyStr btype}"
    if !(pyFalsy lane) then some (base ++ s!" in {pyStr lane}" ++ "\n")
    else some (base ++ "\n")
  else some ""

/-- The render loop over `important_events[:20]` (the enumerate index is
unused by the loop body). -/
def renderEvents : List (Json × Json × Json) → Option String
  | [] => some ""
  | t :: rest =>
    obind (renderEvent t.1 t.2.1 t.2.2) fun line =>
    obind (renderEvents rest) fun tail =>
    some (line ++ tail)

/-- Embedding of `format_match_timeline`: filters events to the allow-list, sorts by
frame timestamp ascending, renders the first 20 and counts the rest. -/
def format_match_timeline (timeline_data : Json) : Option String :=
  obind (pyContains timeline_data "error") fun hasErr =>
  if hasErr then
    obind (pySubscript timeline_data "error") fun e =>
    some s!"Error: {pyStr e}"
  else
  obind (pyGetD timeline_data "metadata" (.obj [])) fun metadata =>
  obind (pyGetD timeline_data "info" (.obj [])) fun info =>
  obind (pyGetD metadata "matchId" (.str "N/A")) fun match_id =>
  obind (pyGetD info "frameInterval" (.num 60000)) fun frame_interval =>
  obind (pyGetD info "frames" (.arr [])) fun frames_j =>
  obind (pyIter frames_j) fun frames =>
  obind (pyDivFloat frame_interval 1000) fun fiq =>
  let header := s!"\nMATCH TIMELINE\n==============\nMatch ID: {pyStr match_id}\nFrame Interval: {fmtFloatQ fiq}s\nTotal Frames: {frames.length}\n\nKEY EVENTS:\n"
  obind (collectImportant frames) fun important =>
  obind (sortByTs important) fun sorted_events =>
  obind (renderEvents (sorted_events.take 20)) fun body =>
  let suffix := if 20 < important.length then s!"\n... and {important.length - 20} more events" else ""
  some (header ++ body ++ suffix)

/-- Embedding of `get_match_timeline`: region-validated, then routed through
`get_routing_region` (the URL itself is not modelled). -/
def get_match_timeline (apiKey : Option String) (match_id region : String)
    (resp : UpstreamResult) : Option String × Bool :=
  if !(LOL_REGIONS.contains region) then (some (invalidRegionMsg region), false)
  else
    let (data, called) := make_riot_request apiKey resp
    if pyFalsy data then (some "Unable to fetch match timeline.", called)
    else (format_match_timeline data, called)

/-! Definitions used to state the claims: well-formedness of upstream
payloads, sample payloads, and a structured timeline encoding. -/

/-- Whether the configured API key is unset in Python's sense
(`if not API_KEY`): absent or the empty string. -/
def keyUnset : Option String → Bool
  | none => true
  | some s => s == ""

/-- Whether a JSON value is a dict. -/
def isObj : Json → Bool
  | .obj _ => true
  | _ => false

/-- Whether a JSON value is usable as a Python int (int or bool). -/
def intLike : Json → Bool
  | .num _ => true
  | .bool _ => true
  | _ => false

/-- Whether a JSON value is a list whose elements are all dicts. -/
def isArrOfObjs : Json → Bool
  | .arr xs => xs.all isObj
  | _ => false

/-- A 2xx body on which `format_account` cannot raise: falsy (caught by the
tool) or any dict. -/
def accountBodyWF (j : Json) : Bool :=
  pyFalsy j || isObj j

/-- A 2xx body on which `format_active_game` cannot raise: falsy, an error
dict, or a dict whose `gameLength` is an int and whose participant and ban
lists hold dicts. -/
def activeGameBodyWF (j : Json) : Bool :=
  pyFalsy j ||
  (match j with
   | .obj fs =>
     fs.any (fun kv => kv.1 == "error") ||
     (intLike ((lookupField fs "gameLength").getD (.num 0)) &&
      isArrOfObjs ((lookupField fs "participants").getD (.arr [])) &&
      isArrOfObjs ((lookupField fs "bannedChampions").getD (.arr [])))
   | _ => false)

/-- A 2xx body on which `format_clash_player` cannot raise: falsy, an error
dict, or a list of dicts. -/
def clashBodyWF (j : Json) : Bool :=
  pyFalsy j || jsonIsErrObj j || isArrOfObjs j

/-- Lifts a body condition to the upstream outcome (error outcomes always
produce the safe error dict). -/
def respBodyWF (wf : Json → Bool) : UpstreamResult → Bool
  | .success b => wf b
  | _ => true

/-- A minimal league entry with one win and one loss. -/
def sampleEntry : Json :=
  Json.obj [("wins", Json.num 1), ("losses", Json.num 1)]

/-- Fifteen league entries: longer than the 10-entry display cap. -/
def sampleEntries15 : Json :=
  Json.arr (List.replicate 15 sampleEntry)

/-- A league-list payload with fifteen entries. -/
def sampleLeagueList : Json :=
  Json.obj [("tier", Json.str "CHALLENGER"), ("entries", Json.arr (List.replicate 15 sampleEntry))]

/-- A league entry with 7 wins and 3 losses (win rate exactly 70%). -/
def sampleWrEntry : Json :=
  Json.obj [("wins", Json.num 7), ("losses", Json.num 3)]

/-- A one-entry league-entries payload for the win-rate check. -/
def sampleWrEntries : Json :=
  Json.arr [sampleWrEntry]

/-- A one-entry league-list payload for the win-rate check. -/
def sampleWrLeague : Json :=
  Json.obj [("tier", Json.str "GOLD"), ("entries", Json.arr [sampleWrEntry])]

/-- Eleven match IDs: one more than the display cap of `format_match_ids`. -/
def sampleIds11 : List Json :=
  (List.range 11).map fun i => Json.str s!"NA1_{i}"

/-- A structured timeline frame: a timestamp and the field lists of the
frame's event dicts. -/
structure TLFrame where
  ts : Int
  events : List (List (String × Json))

/-- The JSON encoding of a structured frame. -/
def encodeTLFrame (f : TLFrame) : Json :=
  Json.obj [("timestamp", Json.num f.ts), ("events", Json.arr (f.events.map Json.obj))]

/-- The JSON encoding of a structured timeline payload. -/
def encodeTimeline (mid : String) (fi : Int) (frames : List TLFrame) : Json :=
  Json.obj [("metadata", Json.obj [("matchId", Json.str mid)]),
    ("info", Json.obj [("frameInterval", Json.num fi), ("frames", Json.arr (frames.map encodeTLFrame))])]

/-- The `type` field of a structured event (default the empty string, as in
`event.get('type', '')`). -/
def eventTypeOf (e : List (String × Json)) : Json :=
  (lookupField e "type").getD (Json.str "")

/-- Specification-side collection: every allow-listed event of every frame,
keyed by its frame timestamp, in frame order. -/
def declKeyed (frames : List TLFrame) : List (Int × (Json × Json × Json)) :=
  frames.flatMap fun f =>
    (f.events.filter fun e => isImportantType (eventTypeOf e)).map fun e =>
      (f.ts, (Json.num f.ts, eventTypeOf e, Json.obj e))

/-- A sample PUUID argument longer than the 8-character display slice. -/
def samplePuuid : String := "PUUIDLONG"

/-! Lemmas and claim theorems. -/

@[simp] theorem obind_some {a b : Type} (x : a) (k : a → Option b) : obind (some x) k = k x := rfl

@[simp] theorem obind_none {a b : Type} (k : a → Option b) : obind none k = none := rfl

@[simp] theorem toString_of_string (s : String) : toString s = s := rfl

@[simp] theorem string_append_empty_right (s : String) : s ++ "" = s :=
  String.append_empty s

theorem lookupField_of_hasKey (fs : List (String × Json)) (k : String)
    (h : fs.any (fun kv => kv.1 == k) = true) : ∃ v, lookupField fs k = some v := by
  induction fs with
  | nil => simp at h
  | cons kv rest ih =>
    obtain ⟨k0, v0⟩ := kv
    by_cases hk : k0 = k
    · have hb : (k == k0) = true := beq_iff_eq.mpr hk.symm
      exact ⟨v0, by simp only [lookupField, List.lookup, hb]⟩
    · have hb : (k0 == k) = false := beq_eq_false_iff_ne.mpr hk
      have hb' : (k == k0) = false := beq_eq_false_iff_ne.mpr (fun he => hk he.symm)
      simp only [List.any_cons, hb, Bool.false_or] at h
      obtain ⟨v, hv⟩ := ih h
      exact ⟨v, by simp only [lookupField, List.lookup, hb']; exact hv⟩

theorem hasKey_of_lookupField (fs : List (String × Json)) (k : String) (v : Json)
    (h : lookupField fs k = some v) : fs.any (fun kv => kv.1 == k) = true := by
  induction fs with
  | nil => simp [lookupField, List.lookup] at h
  | cons kv rest ih =>
    obtain ⟨k0, v0⟩ := kv
    by_cases hk : k0 = k
    · have hb : (k0 == k) = true := beq_iff_eq.mpr hk
      simp [List.any_cons, hb]
    · have hb : (k0 == k) = false := beq_eq_false_iff_ne.mpr hk
      have hb' : (k == k0) = false := beq_eq_false_iff_ne.mpr (fun he => hk he.symm)
      simp only [lookupField, List.lookup, hb'] at h
      simp [List.any_cons, hb, ih h]

/-- C4: the platform-to-routing translation is total: each of the eleven
platform regions maps to the table's routing region, and any string absent
from the table maps to the default "americas". -/
theorem routing_region_table_and_default :
    (get_routing_region "na1" = "americas" ∧ get_routing_region "br1" = "americas" ∧
     get_routing_region "la1" = "americas" ∧ get_routing_region "la2" = "americas" ∧
     get_routing_region "kr" = "asia" ∧ get_routing_region "jp1" = "asia" ∧
     get_routing_region "euw1" = "europe" ∧ get_routing_region "eun1" = "europe" ∧
     get_routing_region "tr1" = "europe" ∧ get_routing_region "ru" = "europe" ∧
     get_routing_region "oc1" = "sea") ∧
    (∀ s : String, s ∉ PLATFORM_TO_ROUTING.map Prod.fst → get_routing_region s = "americas") := by
  refine ⟨by decide, ?_⟩
  intro s hs
  simp [PLATFORM_TO_ROUTING, List.map] at hs
  obtain ⟨h1, h2, h3, h4, h5, h6, h7, h8, h9, h10, h11⟩ := hs
  simp [get_routing_region, PLATFORM_TO_ROUTING, List.lookup,
    beq_eq_false_iff_ne.mpr h1, beq_eq_false_iff_ne.mpr h2, beq_eq_false_iff_ne.mpr h3,
    beq_eq_false_iff_ne.mpr h4, beq_eq_false_iff_ne.mpr h5, beq_eq_false_iff_ne.mpr h6,
    beq_eq_false_iff_ne.mpr h7, beq_eq_false_iff_ne.mpr h8, beq_eq_false_iff_ne.mpr h9,
    beq_eq_false_iff_ne.mpr h10, beq_eq_false_iff_ne.mpr h11]

/-- Witness for C4 at the out-of-table region "garbage". -/
theorem routing_region_witness :
    ("garbage" ∉ PLATFORM_TO_ROUTING.map Prod.fst) ∧ get_routing_region "garbage" = "americas" :=
  ⟨by decide, routing_region_table_and_default.2 "garbage" (by decide)⟩

/-- C5 (amended): with the API key unset (absent or empty), every embedded
tool returns the configuration-error message with no network call — for the
region-validated tools, provided the region argument passes validation
(an invalid region is reported first, still with no network call). -/
theorem missing_key_config_error :
    (∀ (key : Option String) (puuid region : String) (resp : UpstreamResult),
      keyUnset key = true →
      get_account_by_puuid key puuid region resp =
        (some "Error: RIOT_API_KEY environment variable not set", false)) ∧
    (∀ (key : Option String) (puuid region : String) (resp : UpstreamResult),
      keyUnset key = true → LOL_REGIONS.contains region = true →
      get_active_game key puuid region resp =
        (some "Error: RIOT_API_KEY environment variable not set", false)) ∧
    (∀ (key : Option String) (puuid region : String) (resp : UpstreamResult),
      keyUnset key = true → LOL_REGIONS.contains region = true →
      get_clash_players_by_puuid key puuid region resp =
        (some "Error: RIOT_API_KEY environment variable not set", false)) ∧
    (∀ (key : Option String) (mid region : String) (resp : UpstreamResult),
      keyUnset key = true → LOL_REGIONS.contains region = true →
      get_match_timeline key mid region resp =
        (some "Error: RIOT_API_KEY environment variable not set", false)) := by
  refine ⟨?_, ?_, ?_, ?_⟩
  · intro key puuid region resp hk
    cases key with
    | none => rfl
    | some s =>
      have hs : s = "" := by simpa [keyUnset] using hk
      subst hs; rfl
  · intro key puuid region resp hk hr
    cases key with
    | none => unfold get_active_game; rw [hr]; rfl
    | some s =>
      have hs : s = "" := by simpa [keyUnset] using hk
      subst hs; unfold get_active_game; rw [hr]; rfl
  · intro key puuid region resp hk hr
    cases key with
    | none => unfold get_clash_players_by_puuid; rw [hr]; rfl
    | some s =>
      have hs : s = "" := by simpa [keyUnset] using hk
      subst hs; unfold get_clash_players_by_puuid; rw [hr]; rfl
  · intro key mid region resp hk hr
    cases key with
    | none => unfold get_match_timeline; rw [hr]; rfl
    | some s =>
      have hs : s = "" := by simpa [keyUnset] using hk
      subst hs; unfold get_match_timeline; rw [hr]; rfl

/-- Witness for C5 at concrete inputs: the unset and empty key, with an
unvalidated tool and a validated one. -/
theorem missing_key_witness :
    keyUnset none = true ∧
    get_account_by_puuid none "p" "americas" (.success (Json.obj [])) =
      (some "Error: RIOT_API_KEY environment variable not set", false) ∧
    LOL_REGIONS.contains "na1" = true ∧
    get_active_game (some "") "p" "na1" (.exn "boom") =
      (some "Error: RIOT_API_KEY environment variable not set", false) :=
  ⟨by decide, missing_key_config_error.1 none "p" "americas" _ (by decide), by decide,
    missing_key_config_error.2.1 (some "") "p" "na1" _ (by decide) (by decide)⟩

/-- Counterexample for C5 as stated: with the key unset but an invalid
region, `get_active_game` returns the region-validation error, not the
configuration-error message (and still makes no network call). -/
theorem missing_key_invalid_region_counterexample :
    get_active_game none "p" "narnia" (.success (Json.obj [("a", Json.num 1)])) =
      (some (invalidRegionMsg "narnia"), false) ∧
    invalidRegionMsg "narnia" ≠ "Error: RIOT_API_KEY environment variable not set" := by
  exact ⟨rfl, by decide⟩

/-- C6: a non-2xx upstream status surfaces, for every embedded tool, as an
output string prefixed with "Error: " that carries the numeric status code
and the upstream body verbatim. -/
theorem upstream_error_surfaced :
    (∀ (key puuid region : String) (code : Nat) (text : String), key ≠ "" →
      (get_account_by_puuid (some key) puuid region (.httpError code text)).1 =
        some ("Error: " ++ s!"HTTP {code}: {text}")) ∧
    (∀ (key puuid region : String) (code : Nat) (text : String),
      key ≠ "" → LOL_REGIONS.contains region = true →
      (get_active_game (some key) puuid region (.httpError code text)).1 =
        some ("Error: " ++ s!"HTTP {code}: {text}")) ∧
    (∀ (key puuid region : String) (code : Nat) (text : String),
      key ≠ "" → LOL_REGIONS.contains region = true →
      (get_clash_players_by_puuid (some key) puuid region (.httpError code text)).1 =
        some ("Error: " ++ s!"HTTP {code}: {text}")) ∧
    (∀ (key mid region : String) (code : Nat) (text : String),
      key ≠ "" → LOL_REGIONS.contains region = true →
      (get_match_timeline (some key) mid region (.httpError code text)).1 =
        some ("Error: " ++ s!"HTTP {code}: {text}")) := by
  refine ⟨?_, ?_, ?_, ?_⟩
  · intro key puuid region code text hk
    simp [get_account_by_puuid, make_riot_request, hk, errObj, pyFalsy, format_account,
      pyContains, pySubscript, lookupField, List.lookup, pyStr]
  · intro key puuid region code text hk hr
    unfold get_active_game
    rw [hr]
    simp [make_riot_request, hk, errObj, pyFalsy, format_active_game,
      pyContains, pySubscript, lookupField, List.lookup, pyStr]
  · intro key puuid region code text hk hr
    unfold get_clash_players_by_puuid
    rw [hr]
    simp [make_riot_request, hk, errObj, pyFalsy, format_clash_player, jsonIsErrObj,
      pyContains, pySubscript, lookupField, List.lookup, pyStr]
  · intro key mid region code text hk hr
    unfold get_match_timeline
    rw [hr]
    simp [make_riot_request, hk, errObj, pyFalsy, format_match_timeline,
      pyContains, pySubscript, lookupField, List.lookup, pyStr]

/-- Witness for C6 at a concrete 404 with a body. -/
theorem upstream_error_witness :
    ("k" : String) ≠ "" ∧ LOL_REGIONS.contains "na1" = true ∧
    (get_account_by_puuid (some "k") "p" "americas" (.httpError 404 "summoner not found")).1 =
      some ("Error: " ++ s!"HTTP {(404 : Nat)}: summoner not found") ∧
    (get_active_game (some "k") "p" "na1" (.httpError 404 "summoner not found")).1 =
      some ("Error: " ++ s!"HTTP {(404 : Nat)}: summoner not found") :=
  ⟨by decide, by decide,
    upstream_error_surfaced.1 "k" "p" "americas" 404 "summoner not found" (by decide),
    upstream_error_surfaced.2.1 "k" "p" "na1" 404 "summoner not found" (by decide) (by decide)⟩

/-- C7 (amended): an empty 2xx list from the Clash players endpoint is caught
by the tool's falsy-data guard and reported as "Unable to fetch Clash player
data."; the formatter's explicit "none found" sentence is produced only when
the formatter itself receives the empty list. -/
theorem clash_empty_upstream_list :
    (∀ (key puuid region : String), key ≠ "" → LOL_REGIONS.contains region = true →
      get_clash_players_by_puuid (some key) puuid region (.success (Json.arr [])) =
        (some "Unable to fetch Clash player data.", true)) ∧
    format_clash_player (Json.arr []) =
      some "No active Clash registrations found for this player." := by
  refine ⟨?_, by decide⟩
  intro key puuid region hk hr
  unfold get_clash_players_by_puuid
  rw [hr]
  simp [make_riot_request, hk, pyFalsy]

/-- Witness for C7 at a concrete key and region. -/
theorem clash_empty_upstream_witness :
    ("k" : String) ≠ "" ∧ LOL_REGIONS.contains "na1" = true ∧
    get_clash_players_by_puuid (some "k") "p" "na1" (.success (Json.arr [])) =
      (some "Unable to fetch Clash player data.", true) :=
  ⟨by decide, by decide, clash_empty_upstream_list.1 "k" "p" "na1" (by decide) (by decide)⟩

/-- Counterexample for C7 as stated: on an empty upstream list the Clash
players tool does not return the "none found" sentence. -/
theorem clash_empty_list_counterexample :
    (get_clash_players_by_puuid (some "RGAPI-key") "p" "na1" (.success (Json.arr []))).1 =
      some "Unable to fetch Clash player data." ∧
    (some "Unable to fetch Clash player data." : Option String) ≠
      some "No active Clash registrations found for this player." := by
  exact ⟨rfl, by decide⟩

/-- C10: every embedded dict-accepting formatter classifies its input solely
by the presence of a top-level "error" key — any object carrying that key is
rendered as "Error: <value>" with all other fields discarded — and a 2xx
body shaped like the in-band error dict is indistinguishable from a failed
request. -/
theorem inband_error_classification :
    (∀ (fs : List (String × Json)) (v : Json), lookupField fs "error" = some v →
      format_account (Json.obj fs) = some ("Error: " ++ pyStr v)) ∧
    (∀ (fs : List (String × Json)) (v : Json), lookupField fs "error" = some v →
      format_active_game (Json.obj fs) = some ("Error: " ++ pyStr v)) ∧
    (∀ (fs : List (String × Json)) (v : Json), lookupField fs "error" = some v →
      format_match_timeline (Json.obj fs) = some ("Error: " ++ pyStr v)) ∧
    (∀ (key puuid region : String) (code : Nat) (text : String), key ≠ "" →
      get_account_by_puuid (some key) puuid region (.success (errObj s!"HTTP {code}: {text}")) =
        get_account_by_puuid (some key) puuid region (.httpError code text)) := by
  refine ⟨?_, ?_, ?_, ?_⟩
  · intro fs v h
    have hany := hasKey_of_lookupField fs "error" v h
    simp [format_account, pyContains, hany, pySubscript, h]
  · intro fs v h
    have hany := hasKey_of_lookupField fs "error" v h
    simp [format_active_game, pyContains, hany, pySubscript, h]
  · intro fs v h
    have hany := hasKey_of_lookupField fs "error" v h
    simp [format_match_timeline, pyContains, hany, pySubscript, h]
  · intro key puuid region code text hk
    simp [get_account_by_puuid, make_riot_request, hk]

/-- Witness for C10: a successful response whose object carries an "error"
key next to ordinary fields renders as the error string alone. -/
theorem inband_error_witness :
    lookupField [("error", Json.str "oops"), ("puuid", Json.str "x")] "error" =
      some (Json.str "oops") ∧
    format_account (Json.obj [("error", Json.str "oops"), ("puuid", Json.str "x")]) =
      some ("Error: " ++ pyStr (Json.str "oops")) :=
  ⟨rfl, inband_error_classification.1 [("error", Json.str "oops"), ("puuid", Json.str "x")]
    (Json.str "oops") rfl⟩

/-- C1 (amended): every embedded tool that declares its region as a member
of `LOL_REGIONS` rejects an outside value with the error string that names
the value and enumerates the set, before any network call; the account-family
tools perform no region validation at all, and attempt the network call for
any region string once a key is set. -/
theorem region_validation_and_account_gap :
    (∀ (key : Option String) (puuid region : String) (resp : UpstreamResult),
      LOL_REGIONS.contains region = false →
      get_active_game key puuid region resp = (some (invalidRegionMsg region), false)) ∧
    (∀ (key : Option String) (puuid region : String) (resp : UpstreamResult),
      LOL_REGIONS.contains region = false →
      get_clash_players_by_puuid key puuid region resp = (some (invalidRegionMsg region), false)) ∧
    (∀ (key : Option String) (mid region : String) (resp : UpstreamResult),
      LOL_REGIONS.contains region = false →
      get_match_timeline key mid region resp = (some (invalidRegionMsg region), false)) ∧
    (∀ (key puuid region : String) (resp : UpstreamResult), key ≠ "" →
      (get_account_by_puuid (some key) puuid region resp).2 = true) := by
  refine ⟨?_, ?_, ?_, ?_⟩
  · intro key puuid region resp hr
    unfold get_active_game
    rw [hr]
    rfl
  · intro key puuid region resp hr
    unfold get_clash_players_by_puuid
    rw [hr]
    rfl
  · intro key mid region resp hr
    unfold get_match_timeline
    rw [hr]
    rfl
  · intro key puuid region resp hk
    cases resp <;> simp [get_account_by_puuid, make_riot_request, hk] <;> split <;> rfl

/-- Witness for C1 at the invalid region "foo". -/
theorem region_validation_witness :
    LOL_REGIONS.contains "foo" = false ∧
    get_active_game (some "k") "p" "foo" (.success (Json.obj [])) =
      (some (invalidRegionMsg "foo"), false) ∧
    (get_account_by_puuid (some "k") "p" "foo" (.success (Json.obj []))).2 = true :=
  ⟨by decide, region_validation_and_account_gap.1 (some "k") "p" "foo" _ (by decide),
    region_validation_and_account_gap.2.2.2 "k" "p" "foo" _ (by decide)⟩

/-- Counterexample for C1 as stated: the account tool, whose region is
declared as one of americas/asia/europe, accepts the outside value "foo"
without any validation error and attempts the network call. -/
theorem account_region_counterexample :
    ("foo" ∉ (["americas", "asia", "europe"] : List String)) ∧
    (get_account_by_puuid (some "RGAPI-key") "puuid123" "foo"
      (.success (Json.obj [("puuid", Json.str "x")]))).2 = true ∧
    (get_account_by_puuid (some "RGAPI-key") "puuid123" "foo"
      (.success (Json.obj [("puuid", Json.str "x")]))).1 =
      some "\nPUUID: x\nGame Name: N/A\nTag Line: N/A\nRiot ID: N/A#N/A\n" := by
  refine ⟨by decide, rfl, by decide⟩

theorem isObj_exists {j : Json} (h : isObj j = true) : ∃ fs, j = Json.obj fs := by
  cases j with
  | obj fs => exact ⟨fs, rfl⟩
  | null => simp [isObj] at h
  | bool b => simp [isObj] at h
  | num n => simp [isObj] at h
  | str s => simp [isObj] at h
  | arr xs => simp [isObj] at h

theorem intLike_asInt {j : Json} (h : intLike j = true) : ∃ n, pyAsInt j = some n := by
  cases j with
  | num n => exact ⟨n, rfl⟩
  | bool b => exact ⟨if b then 1 else 0, rfl⟩
  | null => simp [intLike] at h
  | str s => simp [intLike] at h
  | arr xs => simp [intLike] at h
  | obj fs => simp [intLike] at h

theorem isArrOfObjs_exists {j : Json} (h : isArrOfObjs j = true) :
    ∃ xs, j = Json.arr xs ∧ xs.all isObj = true := by
  cases j with
  | arr xs => exact ⟨xs, rfl, by simpa [isArrOfObjs] using h⟩
  | null => simp [isArrOfObjs] at h
  | bool b => simp [isArrOfObjs] at h
  | num n => simp [isArrOfObjs] at h
  | str s => simp [isArrOfObjs] at h
  | obj fs => simp [isArrOfObjs] at h

theorem teamPartition_isSome (ps : List Json) (h : ps.all isObj = true) :
    (teamPartition ps).isSome := by
  induction ps with
  | nil => simp [teamPartition]
  | cons p rest ih =>
    rw [List.all_cons, Bool.and_eq_true] at h
    obtain ⟨fs, rfl⟩ := isObj_exists h.1
    obtain ⟨tt, htt⟩ := Option.isSome_iff_exists.mp (ih h.2)
    simp only [teamPartition, pyGetD, pyGet, obind_some, htt]
    split <;> simp

theorem format_account_obj_isSome (fs : List (String × Json)) :
    (format_account (Json.obj fs)).isSome := by
  cases hany : fs.any (fun kv => kv.1 == "error") with
  | true =>
    obtain ⟨v, hv⟩ := lookupField_of_hasKey fs "error" hany
    simp [format_account, pyContains, hany, pySubscript, hv]
  | false =>
    simp [format_account, pyContains, hany, pyGetD]

theorem format_active_game_isSome (j : Json) (hwf : activeGameBodyWF j = true)
    (hf : pyFalsy j = false) : (format_active_game j).isSome := by
  cases j with
  | null => simp [pyFalsy] at hf
  | bool b => simp [activeGameBodyWF, hf] at hwf
  | num n => simp [activeGameBodyWF, hf] at hwf
  | str s => simp [activeGameBodyWF, hf] at hwf
  | arr xs => simp [activeGameBodyWF, hf] at hwf
  | obj fs =>
  simp only [activeGameBodyWF, hf, Bool.false_or] at hwf
  cases hany : fs.any (fun kv => kv.1 == "error") with
  | true =>
    obtain ⟨v, hv⟩ := lookupField_of_hasKey fs "error" hany
    simp [format_active_game, pyContains, hany, pySubscript, hv]
  | false =>
    rw [hany, Bool.false_or, Bool.and_eq_true, Bool.and_eq_true] at hwf
    obtain ⟨⟨hgl, hparts⟩, hbans⟩ := hwf
    obtain ⟨n, hn⟩ := intLike_asInt hgl
    obtain ⟨ps, hps, hpso⟩ := isArrOfObjs_exists hparts
    obtain ⟨bs, hbs, hbso⟩ := isArrOfObjs_exists hbans
    obtain ⟨tt, htt⟩ := Option.isSome_iff_exists.mp (teamPartition_isSome ps hpso)
    obtain ⟨bb, hbb⟩ := Option.isSome_iff_exists.mp (teamPartition_isSome bs hbso)
    simp [format_active_game, pyContains, hany, pyGetD, pyFloorDiv, pyModC, hn,
      hps, hbs, pyIter, htt, hbb]

theorem clashRegBlocks_isSome (i : Nat) (rs : List Json) (h : rs.all isObj = true) :
    (clashRegBlocks i rs).isSome := by
  induction rs generalizing i with
  | nil => simp [clashRegBlocks]
  | cons r rest ih =>
    rw [List.all_cons, Bool.and_eq_true] at h
    obtain ⟨fs, rfl⟩ := isObj_exists h.1
    obtain ⟨tail, htail⟩ := Option.isSome_iff_exists.mp (ih h.2 (i := i + 1))
    simp [clashRegBlocks, pyGetD, htail]

theorem format_clash_player_isSome (j : Json) (hwf : clashBodyWF j = true) :
    (format_clash_player j).isSome := by
  cases hf : pyFalsy j with
  | true => simp [format_clash_player, hf]
  | false =>
    rw [clashBodyWF, hf, Bool.false_or] at hwf
    cases herr : jsonIsErrObj j with
    | true =>
      obtain ⟨fs, rfl⟩ : ∃ fs, j = Json.obj fs := by
        cases j <;> simp [jsonIsErrObj] at herr ⊢
      have hany : fs.any (fun kv => kv.1 == "error") = true := by
        simpa [jsonIsErrObj] using herr
      obtain ⟨v, hv⟩ := lookupField_of_hasKey fs "error" hany
      simp [format_clash_player, hf, herr, pySubscript, hv]
    | false =>
      rw [herr, Bool.false_or] at hwf
      obtain ⟨xs, rfl, hall⟩ := isArrOfObjs_exists hwf
      obtain ⟨blocks, hblocks⟩ := Option.isSome_iff_exists.mp (clashRegBlocks_isSome 1 xs hall)
      simp [format_clash_player, hf, herr, pyLen, pyIter, hblocks]

/-- C2 (amended): every embedded tool returns a string for every input and
every upstream outcome whose 2xx payload is well typed for the tool's
formatter (any object for the account tool; an integer `gameLength` and
dict lists for the active-game tool; a list of dicts for the Clash tool);
for an ill-typed payload — e.g. a string `gameLength` — a `TypeError`
escapes the tool unit. -/
theorem tool_output_total_when_welltyped :
    (∀ (key : Option String) (puuid region : String) (resp : UpstreamResult),
      respBodyWF accountBodyWF resp = true →
      (get_account_by_puuid key puuid region resp).1.isSome) ∧
    (∀ (key : Option String) (puuid region : String) (resp : UpstreamResult),
      respBodyWF activeGameBodyWF resp = true →
      (get_active_game key puuid region resp).1.isSome) ∧
    (∀ (key : Option String) (puuid region : String) (resp : UpstreamResult),
      respBodyWF clashBodyWF resp = true →
      (get_clash_players_by_puuid key puuid region resp).1.isSome) := by
  have hkey : ∀ (key : Option String) (resp : UpstreamResult),
      (∃ (msg : String) (called : Bool), make_riot_request key resp = (errObj msg, called)) ∨
      (∃ (body : Json) (called : Bool), resp = .success body ∧
        make_riot_request key resp = (body, called)) := by
    intro key resp
    cases key with
    | none => exact Or.inl ⟨_, _, rfl⟩
    | some s =>
      by_cases hs : s = ""
      · subst hs; exact Or.inl ⟨_, _, rfl⟩
      · cases resp with
        | success body => exact Or.inr ⟨body, true, rfl, by simp [make_riot_request, hs]⟩
        | httpError code text =>
          exact Or.inl ⟨s!"HTTP {code}: {text}", true, by simp [make_riot_request, hs]⟩
        | exn msg =>
          exact Or.inl ⟨s!"Request failed: {msg}", true, by simp [make_riot_request, hs]⟩
  refine ⟨?_, ?_, ?_⟩
  · intro key puuid region resp hwf
    unfold get_account_by_puuid
    rcases hkey key resp with ⟨msg, called, h⟩ | ⟨body, called, hb, h⟩ <;> rw [h]
    · simpa [errObj, pyFalsy] using format_account_obj_isSome [("error", Json.str msg)]
    · subst hb
      simp only [respBodyWF, accountBodyWF] at hwf
      cases hf : pyFalsy body with
      | true => simp [hf]
      | false =>
        rw [hf, Bool.false_or] at hwf
        obtain ⟨fs, rfl⟩ := isObj_exists hwf
        simpa [hf] using format_account_obj_isSome fs
  · intro key puuid region resp hwf
    unfold get_active_game
    cases hr : LOL_REGIONS.contains region with
    | false => simp
    | true =>
      simp only [hr, Bool.not_true, Bool.false_eq_true, if_false]
      rcases hkey key resp with ⟨msg, called, h⟩ | ⟨body, called, hb, h⟩ <;> rw [h]
      · have hwfe : activeGameBodyWF (errObj msg) = true := by
          simp [activeGameBodyWF, errObj]
        simpa [errObj, pyFalsy] using format_active_game_isSome (errObj msg) hwfe rfl
      · subst hb
        simp only [respBodyWF] at hwf
        cases hf : pyFalsy body with
        | true => simp [hf]
        | false => simpa [hf] using format_active_game_isSome body hwf hf
  · intro key puuid region resp hwf
    unfold get_clash_players_by_puuid
    cases hr : LOL_REGIONS.contains region with
    | false => simp
    | true =>
      simp only [hr, Bool.not_true, Bool.false_eq_true, if_false]
      rcases hkey key resp with ⟨msg, called, h⟩ | ⟨body, called, hb, h⟩ <;> rw [h]
      · have hwfe : clashBodyWF (errObj msg) = true := by
          simp [clashBodyWF, errObj, jsonIsErrObj]
        simpa [errObj, pyFalsy] using format_clash_player_isSome (errObj msg) hwfe
      · subst hb
        simp only [respBodyWF] at hwf
        cases hf : pyFalsy body with
        | true => simp [hf]
        | false => simpa [hf] using format_clash_player_isSome body hwf

/-- Witness for C2: well-typed concrete payloads through the account and
active-game tools. -/
theorem tool_output_total_witness :
    respBodyWF activeGameBodyWF (.success (Json.obj [("gameLength", Json.num 90)])) = true ∧
    (get_active_game (some "k") "p" "na1"
      (.success (Json.obj [("gameLength", Json.num 90)]))).1.isSome ∧
    respBodyWF accountBodyWF (.success (Json.obj [("puuid", Json.str "x")])) = true ∧
    (get_account_by_puuid (some "k") "p" "americas"
      (.success (Json.obj [("puuid", Json.str "x")]))).1.isSome :=
  ⟨by decide, tool_output_total_when_welltyped.2.1 (some "k") "p" "na1" _ (by decide), by decide,
    tool_output_total_when_welltyped.1 (some "k") "p" "americas" _ (by decide)⟩

/-- Counterexample for C2 as stated: a 2xx payload with a string
`gameLength` makes the unguarded `game_length // 60` raise a `TypeError`
that escapes `get_active_game` (no string is returned). -/
theorem active_game_typeerror_counterexample :
    (get_active_game (some "RGAPI-key") "p" "na1"
      (.success (Json.obj [("gameLength", Json.str "long")]))).1 = none := by
  rfl

set_option maxRecDepth 400000 in
/-- C3 (amended): the match-IDs formatter truncates to its 10-entry cap and
appends the "... and N more matches" summary; the league-list formatter
truncates to 10 with no summary line; the league-entries formatter has no
cap at all and renders every entry. -/
theorem truncation_capped_formatters :
    (∀ (ids : List Json) (puuid : String), 10 < ids.length →
      format_match_ids (Json.arr ids) puuid =
        some (s!"\nMATCH HISTORY\n=============\nPUUID: {strTake puuid 8}...\nTotal Matches: {ids.length}\n\nRECENT MATCH IDs:\n" ++
          matchIdLines 1 (ids.take 10) ++ s!"\n... and {ids.length - 10} more matches")) ∧
    (∀ ids : List Json, (ids.take 10).length ≤ 10) ∧
    strCountOpt (format_league_entries sampleEntries15) "Queue #" = 15 ∧
    strCountOpt (format_league_list sampleLeagueList) " LP - " = 10 ∧
    strHasOpt (format_league_list sampleLeagueList) "more" = false := by
  refine ⟨?_, ?_, by decide, by decide, by decide⟩
  · intro ids puuid h
    cases ids with
    | nil => simp at h
    | cons a rest =>
      have h' : 10 < rest.length + 1 := by simpa using h
      simp [format_match_ids, pyFalsy, jsonIsErrObj, pyLen, pyIter, h']
  · intro ids
    rw [List.length_take]
    exact min_le_left _ _

set_option maxRecDepth 400000 in
/-- Witness for C3 at eleven match IDs. -/
theorem truncation_witness :
    10 < sampleIds11.length ∧
    format_match_ids (Json.arr sampleIds11) samplePuuid =
      some (s!"\nMATCH HISTORY\n=============\nPUUID: {strTake samplePuuid 8}...\nTotal Matches: {sampleIds11.length}\n\nRECENT MATCH IDs:\n" ++
        matchIdLines 1 (sampleIds11.take 10) ++ s!"\n... and {sampleIds11.length - 10} more matches") :=
  ⟨by decide, truncation_capped_formatters.1 sampleIds11 samplePuuid (by decide)⟩

set_option maxRecDepth 400000 in
/-- Counterexample for C3 as stated: with fifteen league entries the
league-entries formatter renders all fifteen (more than the claimed cap of
10) and emits no "and N more" summary; the league-list formatter caps at 10
but also emits no summary line. -/
theorem league_truncation_counterexample :
    strCountOpt (format_league_entries sampleEntries15) "Queue #" = 15 ∧
    strHasOpt (format_league_entries sampleEntries15) "more" = false ∧
    strHasOpt (format_league_list sampleLeagueList) "more" = false := by
  decide

theorem ratTimes100_eq (q : ℚ) : ratTimes100 q = q * 100 := by
  conv_rhs => rw [← Rat.num_div_den q]
  rw [ratTimes100, Rat.divInt_eq_div]
  push_cast
  ring

set_option maxRecDepth 400000 in
/-- C9: the win rate displayed by the league formatters is computed by the
guarded expression `winrate`: it never divides by zero, equals
`wins / (wins + losses) * 100` when `wins + losses > 0` and `0` otherwise;
the rendered blocks carry exactly that value (70.0 for 7W/3L). -/
theorem winrate_guarded_formula :
    (∀ w l : Int, (winrate w l).isSome) ∧
    (∀ w l : Int, 0 < w + l → winrate w l = some ((w : ℚ) / ((w : ℚ) + (l : ℚ)) * 100)) ∧
    (∀ w l : Int, w + l ≤ 0 → winrate w l = some 0) ∧
    strHasOpt (format_league_entries sampleWrEntries) "7W/3L (70.0% WR)" = true ∧
    strHasOpt (format_league_list sampleWrLeague) "7W/3L (70.0%)" = true := by
  refine ⟨?_, ?_, ?_, by decide, by decide⟩
  · intro w l
    by_cases h : 0 < w + l
    · have hne : ¬(w + l = 0) := by omega
      simp [winrate, h, pyTrueDiv, hne]
    · simp [winrate, h]
  · intro w l h
    have hne : ¬(w + l = 0) := by omega
    have hval : ratTimes100 (Rat.divInt w (w + l)) = (w : ℚ) / ((w : ℚ) + (l : ℚ)) * 100 := by
      rw [ratTimes100_eq, Rat.divInt_eq_div]
      push_cast
      ring
    simp [winrate, if_pos h, pyTrueDiv, if_neg hne, hval]
  · intro w l h
    simp [winrate, not_lt.mpr h, Rat.zero_divInt]

/-- Witness for C9 at 7 wins / 3 losses, and at a zero denominator. -/
theorem winrate_guarded_witness :
    (0 : Int) < 7 + 3 ∧ winrate 7 3 = some ((7 : ℚ) / ((7 : ℚ) + (3 : ℚ)) * 100) ∧
    (7 : Int) + -7 ≤ 0 ∧ winrate 7 (-7) = some 0 :=
  ⟨by decide, winrate_guarded_formula.2.1 7 3 (by decide), by decide,
    winrate_guarded_formula.2.2.1 7 (-7) (by decide)⟩

theorem collectFrameEvents_enc (t : Json) (es : List (List (String × Json))) :
    collectFrameEvents t (es.map Json.obj) =
      some ((es.filter fun e => isImportantType (eventTypeOf e)).map fun e =>
        (t, eventTypeOf e, Json.obj e)) := by
  induction es with
  | nil => rfl
  | cons e rest ih =>
    have he : pyGetD (Json.obj e) "type" (Json.str "") = some (eventTypeOf e) := rfl
    simp only [List.map_cons, collectFrameEvents, he, obind_some, ih, List.filter_cons]
    cases h : isImportantType (eventTypeOf e) with
    | true => simp [h]
    | false => simp [h]

theorem collectImportant_enc (frames : List TLFrame) :
    collectImportant (frames.map encodeTLFrame) = some ((declKeyed frames).map Prod.snd) := by
  induction frames with
  | nil => rfl
  | cons f rest ih =>
    have h1 : pyGetD (encodeTLFrame f) "timestamp" (Json.num 0) = some (Json.num f.ts) := rfl
    have h2 : pyGetD (encodeTLFrame f) "events" (Json.arr []) =
        some (Json.arr (f.events.map Json.obj)) := rfl
    simp only [List.map_cons, collectImportant, h1, h2, obind_some, pyIter,
      collectFrameEvents_enc, ih]
    simp only [declKeyed, List.flatMap_cons, List.map_append, List.map_map]
    rfl

theorem declKeyed_num (frames : List TLFrame) :
    ∀ x ∈ declKeyed frames, x.2.1 = Json.num x.1 := by
  intro x hx
  simp only [declKeyed, List.mem_flatMap, List.mem_map] at hx
  obtain ⟨f, hf, e, he, rfl⟩ := hx
  rfl

theorem sortByTs_keyed_enc (l : List (Int × (Json × Json × Json)))
    (h : ∀ x ∈ l, x.2.1 = Json.num x.1) :
    sortByTs (l.map Prod.snd) = some ((sortAscBy l).map Prod.snd) := by
  suffices hk : sortByTs.keyed (l.map Prod.snd) = some l by
    simp [sortByTs, hk]
  induction l with
  | nil => rfl
  | cons x rest ih =>
    have hx := h x (List.mem_cons_self x rest)
    have htail := ih (fun y hy => h y (List.mem_cons_of_mem x hy))
    simp only [List.map_cons, sortByTs.keyed, hx, pyAsInt, obind_some, htail]

theorem insertAscBy_perm {α : Type} (x : Int × α) (l : List (Int × α)) :
    (insertAscBy x l).Perm (x :: l) := by
  induction l with
  | nil => exact List.Perm.refl _
  | cons y ys ih =>
    by_cases h : x.1 ≤ y.1
    · simp [insertAscBy, h]
    · simp only [insertAscBy, if_neg h]
      exact (ih.cons y).trans (List.Perm.swap x y ys)

theorem sortAscBy_perm {α : Type} (l : List (Int × α)) : (sortAscBy l).Perm l := by
  induction l with
  | nil => exact List.Perm.refl _
  | cons x xs ih => exact (insertAscBy_perm x (sortAscBy xs)).trans (ih.cons x)

theorem insertAscBy_sorted {α : Type} (x : Int × α) (l : List (Int × α))
    (h : List.Sorted (fun a b => a.1 ≤ b.1) l) :
    List.Sorted (fun a b => a.1 ≤ b.1) (insertAscBy x l) := by
  induction l with
  | nil => simp [insertAscBy]
  | cons y ys ih =>
    rw [List.sorted_cons] at h
    by_cases hx : x.1 ≤ y.1
    · simp only [insertAscBy, if_pos hx]
      rw [List.sorted_cons]
      refine ⟨?_, List.sorted_cons.mpr h⟩
      intro b hb
      rcases List.mem_cons.mp hb with rfl | hb'
      · exact hx
      · exact le_trans hx (h.1 b hb')
    · simp only [insertAscBy, if_neg hx]
      rw [List.sorted_cons]
      refine ⟨?_, ih h.2⟩
      intro b hb
      have hb2 := (insertAscBy_perm x ys).mem_iff.mp hb
      rcases List.mem_cons.mp hb2 with rfl | hb'
      · exact le_of_not_le hx
      · exact h.1 b hb'

theorem sortAscBy_sorted {α : Type} (l : List (Int × α)) :
    List.Sorted (fun a b => a.1 ≤ b.1) (sortAscBy l) := by
  induction l with
  | nil => simp [sortAscBy]
  | cons x xs ih => exact insertAscBy_sorted x (sortAscBy xs) ih

theorem format_match_timeline_enc (mid : String) (fi : Int) (frames : List TLFrame) :
    format_match_timeline (encodeTimeline mid fi frames) =
      obind (renderEvents (((sortAscBy (declKeyed frames)).map Prod.snd).take 20)) fun body =>
        some (s!"\nMATCH TIMELINE\n==============\nMatch ID: {mid}\nFrame Interval: {fmtFloatQ (Rat.divInt fi 1000)}s\nTotal Frames: {frames.length}\n\nKEY EVENTS:\n" ++
          body ++
          (if 20 < (declKeyed frames).length then
            s!"\n... and {(declKeyed frames).length - 20} more events" else "")) := by
  have hcol := collectImportant_enc frames
  have hsort := sortByTs_keyed_enc (declKeyed frames) (declKeyed_num frames)
  have hc : pyContains (encodeTimeline mid fi frames) "error" = some false := rfl
  have h1 : pyGetD (encodeTimeline mid fi frames) "metadata" (.obj []) =
      some (Json.obj [("matchId", Json.str mid)]) := rfl
  have h2 : pyGetD (encodeTimeline mid fi frames) "info" (.obj []) =
      some (Json.obj [("frameInterval", Json.num fi),
        ("frames", Json.arr (frames.map encodeTLFrame))]) := rfl
  have h3 : pyGetD (Json.obj [("matchId", Json.str mid)]) "matchId" (Json.str "N/A") =
      some (Json.str mid) := rfl
  have h4 : pyGetD (Json.obj [("frameInterval", Json.num fi),
      ("frames", Json.arr (frames.map encodeTLFrame))]) "frameInterval" (Json.num 60000) =
      some (Json.num fi) := rfl
  have h5 : pyGetD (Json.obj [("frameInterval", Json.num fi),
      ("frames", Json.arr (frames.map encodeTLFrame))]) "frames" (Json.arr []) =
      some (Json.arr (frames.map encodeTLFrame)) := rfl
  have h6 : pyIter (Json.arr (frames.map encodeTLFrame)) =
      some (frames.map encodeTLFrame) := rfl
  have h7 : pyDivFloat (Json.num fi) 1000 = some (Rat.divInt fi 1000) := rfl
  have h8 : pyStr (Json.str mid) = mid := rfl
  simp only [format_match_timeline, hc, obind_some, Bool.false_eq_true, if_false,
    h1, h2, h3, h4, h5, h6, h7, h8, hcol, hsort, List.length_map]

/-- C8: the timeline formatter collects exactly the events whose type is in
the fixed allow-list across all frames (the `List.filter` by
`isImportantType` inside `declKeyed`), sorts them by frame timestamp
ascending (stable sort: sorted output, a permutation of its input), renders
only the first 20 of the sorted list, and appends the "... and N more
events" summary exactly when more than 20 were collected. -/
theorem timeline_filter_sort_cap :
    (∀ frames : List TLFrame,
      collectImportant (frames.map encodeTLFrame) = some ((declKeyed frames).map Prod.snd)) ∧
    (∀ (α : Type) (l : List (Int × α)),
      List.Sorted (fun a b => a.1 ≤ b.1) (sortAscBy l) ∧ (sortAscBy l).Perm l) ∧
    (∀ (mid : String) (fi : Int) (frames : List TLFrame),
      format_match_timeline (encodeTimeline mid fi frames) =
        obind (renderEvents (((sortAscBy (declKeyed frames)).map Prod.snd).take 20)) fun body =>
          some (s!"\nMATCH TIMELINE\n==============\nMatch ID: {mid}\nFrame Interval: {fmtFloatQ (Rat.divInt fi 1000)}s\nTotal Frames: {frames.length}\n\nKEY EVENTS:\n" ++
            body ++
            (if 20 < (declKeyed frames).length then
              s!"\n... and {(declKeyed frames).length - 20} more events" else ""))) :=
  ⟨collectImportant_enc, fun _ l => ⟨sortAscBy_sorted l, sortAscBy_perm l⟩,
    format_match_timeline_enc⟩
